import Mathlib

/-
Verification of the request-dispatch / backend-abstraction layer of the
FlareSolverr HTTP surface (src/src/flaresolverr.py), as a shallow embedding.

The two backend service modules (flaresolverr_service, flaresolverr_service_nd),
the DTO module (dtos) and the bottle plugins are external collaborators of the
file under verification; the handlers take them as function parameters, so the
theorems quantify over every possible backend behaviour.
-/

namespace FlareSolverr

/-- A JSON value, as produced by the handlers (bottle serializes the returned
dict; json.dumps serializes the error-handler dict). Only the shapes the
handlers actually build are needed: strings, numbers, objects. -/
inductive JVal where
  | s : String → JVal
  | n : Nat → JVal
  | obj : List (String × JVal) → JVal

/-- Field lookup in a JSON object (none on non-objects). -/
def JVal.lookup : JVal → String → Option JVal
  | .obj fields, k => fields.lookup k
  | .s _, _ => none
  | .n _, _ => none

/-- The field names of a JSON object, in order. -/
def JVal.keys : JVal → List String
  | .obj fields => fields.map Prod.fst
  | .s _ => []
  | .n _ => []

/-- The solve-response DTO as seen by the HTTP surface: the only attribute the
controller reads is the internal error flag `__error_500__` (line 61); the rest
of the payload is carried opaquely and serialized by utils.object_to_dict. -/
structure SolveResponse where
  status : String
  message : String
  error500 : Bool
deriving Repr, DecidableEq

/-- The request DTO built at line 56 from the parsed JSON body
(`V1RequestBase(request.json)`; class in dtos.py, outside src/). Only the
fields the spec names for validation are modelled. -/
structure V1RequestBase where
  cmd : Option String
  url : Option String
deriving Repr, DecidableEq

/-- Which solve adapter a request was dispatched to (instrumentation of the
if/else at lines 57-60, mirroring the spec's instrumentation counters). -/
inductive Adapter where
  | sync
  | async
deriving Repr, DecidableEq

/-- A coroutine: a computation that takes finitely many event-loop steps and
then completes with a value. Models the awaitable returned by
`flaresolverr_service_nd.controller_v1_endpoint_nd(req)`. -/
inductive Coro (α : Type) where
  | done : α → Coro α
  | step : Coro α → Coro α

/-- Models `asyncio.run` (line 58): create a fresh event loop holding no state
from any other call, drive the coroutine until it completes, and return its
completed value to the (synchronous) caller. -/
def asyncioRun {α : Type} : Coro α → α
  | .done a => a
  | .step c => asyncioRun c

/-- `Completes c a` holds when the coroutine `c`, driven to completion, yields
the value `a`. -/
inductive Completes {α : Type} : Coro α → α → Prop where
  | done (a : α) : Completes (Coro.done a) a
  | step {c : Coro α} {a : α} : Completes c a → Completes (Coro.step c) a

/-- The backend call made by `controller_v1` (lines 57-60): the process-wide
driver selection `utils.DRIVER_SELECTION` picks the asynchronous endpoint
(run through asyncio.run) exactly when it equals "nodriver", and the
synchronous endpoint otherwise. -/
def v1Dispatch (sel : String) (syncEp : V1RequestBase → SolveResponse)
    (ndEp : V1RequestBase → Coro SolveResponse) (req : V1RequestBase) : SolveResponse :=
  if sel = "nodriver" then asyncioRun (ndEp req) else syncEp req

/-- Result of the `/v1` handler: outer HTTP status (bottle's default response
status is 200; line 62 overwrites it with 500), the serialized solve response,
and the instrumentation trace of adapters invoked for this request. -/
structure V1Result where
  httpStatus : Nat
  body : SolveResponse
  dispatched : List Adapter
deriving Repr, DecidableEq

/-- The `/v1` handler `controller_v1` (lines 51-63), for a request whose body
has been parsed into the DTO: dispatch on the process-wide selection, then set
status 500 exactly when the response carries `__error_500__`. -/
def controller_v1 (sel : String) (syncEp : V1RequestBase → SolveResponse)
    (ndEp : V1RequestBase → Coro SolveResponse) (req : V1RequestBase) : V1Result :=
  { httpStatus := if (v1Dispatch sel syncEp ndEp req).error500 then 500 else 200
    body := v1Dispatch sel syncEp ndEp req
    dispatched := if sel = "nodriver" then [Adapter.async] else [Adapter.sync] }

/-- Modelled from the spec: the Request DTO layer (dtos.py) together with the
error plugin (bottle_plugins/error_plugin.py) — repository modules that are not
under src/. Per spec section 4.1, raw untyped JSON produces a SolveRequest or
fails with a ValidationError; a missing command, an unparseable body or a
command outside the fixed known set is a validation failure, not a backend
failure. `none` models a body that did not parse to a JSON object. -/
def validateV1 (knownCmds : List String) : Option V1RequestBase → Except String V1RequestBase
  | none => .error "malformed body"
  | some b =>
    match b.cmd with
    | none => .error "missing command"
    | some c => if knownCmds.contains c then .ok b else .error "unknown command"

/-- Result of the full `/v1` pipeline: on validation failure the body is the
error message and no solve response exists. -/
structure V1PipelineResult where
  httpStatus : Nat
  body : Option SolveResponse
  dispatched : List Adapter

/-- Modelled from the spec (section 4.6): the full solve pipeline — validation
first, 400 on a ValidationError before any backend is invoked, otherwise the
`controller_v1` dispatch of lines 51-63. -/
def v1Pipeline (knownCmds : List String) (sel : String)
    (syncEp : V1RequestBase → SolveResponse) (ndEp : V1RequestBase → Coro SolveResponse)
    (rawBody : Option V1RequestBase) : V1PipelineResult :=
  match validateV1 knownCmds rawBody with
  | .error _ => { httpStatus := 400, body := none, dispatched := [] }
  | .ok req =>
    { httpStatus := (controller_v1 sel syncEp ndEp req).httpStatus
      body := some (controller_v1 sel syncEp ndEp req).body
      dispatched := (controller_v1 sel syncEp ndEp req).dispatched }

/-- Outcome of `requests.get(target_url, headers=headers)` (line 85): either a
completed HTTP exchange (status code and body text — requests does not raise on
4xx/5xx statuses) or a raised `requests.exceptions.RequestException` carrying
its message `str(e)`. -/
inductive FetchOutcome where
  | ok : Nat → String → FetchOutcome
  | exn : String → FetchOutcome
deriving Repr, DecidableEq

/-- One outbound HTTP request made by the handler (instrumentation recording
each call to requests.get with the headers it was given). -/
structure OutboundCall where
  url : String
  headers : List (String × String)
deriving Repr, DecidableEq

/-- Result of the `/content` handler: outer status, explicitly set content
type (line 88; elsewhere bottle serializes the returned dict itself), JSON
body, and the trace of outbound requests made while handling. -/
structure ContentResult where
  httpStatus : Nat
  contentType : Option String
  body : JVal
  outboundCalls : List OutboundCall

/-- The headers dict built at lines 74-81 and forwarded on the outbound
request: the inbound User-Agent header, defaulting to "Unknown" when absent,
and the inbound Cookie header, defaulting to "" when absent. -/
def sentHeaders (uaHdr ckHdr : Option String) : List (String × String) :=
  [("User-Agent", uaHdr.getD "Unknown"), ("Cookie", ckHdr.getD "")]

/-- The `/content` handler (lines 65-103). `urlParam` is
`request.query.get('url')` (none when absent); the Python truthiness test
`if not target_url` rejects both an absent and an empty url. `fetch` is the
outbound HTTP client (requests.get). -/
def content (urlParam uaHdr ckHdr : Option String)
    (fetch : String → List (String × String) → FetchOutcome) : ContentResult :=
  let target_url := urlParam.getD ""
  if target_url = "" then
    { httpStatus := 400
      contentType := none
      body := .obj [("error", .s "Missing \x27url\x27 in query parameters.")]
      outboundCalls := [] }
  else
    let hdrs := sentHeaders uaHdr ckHdr
    match fetch target_url hdrs with
    | .ok code text =>
      { httpStatus := 200
        contentType := some "application/json"
        body := .obj [("message", .s "Request forwarded successfully"),
                      ("target_url", .s target_url),
                      ("received_headers", .obj [("User-Agent", .s (uaHdr.getD "Unknown")),
                                                 ("Cookie", .s (ckHdr.getD ""))]),
                      ("status", .n code),
                      ("external_api_response", .s text)]
        outboundCalls := [{ url := target_url, headers := hdrs }] }
    | .exn e =>
      { httpStatus := 500
        contentType := none
        body := .obj [("error", .s e)]
        outboundCalls := [{ url := target_url, headers := hdrs }] }

/-- The bottle error result handed to the default error handler: its body text
and the HTTP status of the error (404 when no registered route matched). -/
structure BottleErrorRes where
  body : String
  status_code : Nat
deriving Repr, DecidableEq

/-- Output of the error handler: the content type it sets and the JSON object
it serializes with json.dumps. -/
structure ErrorHandlerOut where
  contentType : String
  body : JVal

/-- `JSONErrorBottle.default_error_handler` (lines 20-26): sets the content
type to application/json and returns
`json.dumps(dict(error=res.body, status_code=res.status_code))`. -/
def default_error_handler (res : BottleErrorRes) : ErrorHandlerOut :=
  { contentType := "application/json"
    body := .obj [("error", .s res.body), ("status_code", .n res.status_code)] }

/-- The externally observable steps of the startup tail (lines 164-185). -/
inductive StartupStep where
  | testBrowserInstallationNd
  | testBrowserInstallationUc
  | installPlugins
  | serveTraffic
deriving Repr, DecidableEq

/-- Which self-test lines 165-168 run: the nodriver test under the "nodriver"
selection, the undetected-chromedriver test otherwise. -/
def selectedTestStep (sel : String) : StartupStep :=
  if sel = "nodriver" then .testBrowserInstallationNd else .testBrowserInstallationUc

/-- Whether an Except value is a success. -/
def isOkE : Except String Unit → Bool
  | .ok _ => true
  | .error _ => false

/-- The startup tail of `__main__` (lines 164-185): run the self-test of the
selected backend; an exception there propagates out of the script, so the
process exits before the plugins are installed and before `run(app, ...)`
starts accepting traffic. Returns the ordered trace of executed steps and
whether the server was reached. `testNd` / `testUc` are the outcomes of the
two self-tests (external collaborators). -/
def mainStartup (sel : String) (testNd testUc : Except String Unit) :
    List StartupStep × Bool :=
  match (if sel = "nodriver" then testNd else testUc) with
  | .error _ => ([selectedTestStep sel], false)
  | .ok _ => ([selectedTestStep sel, .installPlugins, .serveTraffic], true)

/-- Every coroutine, driven by asyncioRun, reaches its completed value. -/
theorem asyncioRun_completes {α : Type} (c : Coro α) : Completes c (asyncioRun c) := by
  induction c with
  | done a => exact Completes.done a
  | step c ih => exact Completes.step ih

/-- C1: every POST /v1 request handled by controller_v1 is dispatched to
exactly one adapter, determined solely by the process-wide driver selection:
the asynchronous adapter exactly when the selection is "nodriver", the
synchronous adapter otherwise — never both and never neither. -/
theorem v1_dispatch_exactly_one (sel : String) (syncEp : V1RequestBase → SolveResponse)
    (ndEp : V1RequestBase → Coro SolveResponse) (req : V1RequestBase) :
    (controller_v1 sel syncEp ndEp req).dispatched
        = (if sel = "nodriver" then [Adapter.async] else [Adapter.sync]) ∧
    (controller_v1 sel syncEp ndEp req).dispatched.length = 1 ∧
    ((controller_v1 sel syncEp ndEp req).dispatched = [Adapter.async] ↔ sel = "nodriver") ∧
    ((controller_v1 sel syncEp ndEp req).dispatched = [Adapter.sync] ↔ ¬ sel = "nodriver") := by
  by_cases h : sel = "nodriver" <;> simp [controller_v1, h]

/-- C2: for every /v1 request that yields a SolveResponse, the outer HTTP
status is 500 exactly when the response carries the internal error flag
`__error_500__`; when the flag is false the handler leaves the default
success status 200. -/
theorem v1_status_matches_error_flag (sel : String) (syncEp : V1RequestBase → SolveResponse)
    (ndEp : V1RequestBase → Coro SolveResponse) (req : V1RequestBase) :
    ((controller_v1 sel syncEp ndEp req).httpStatus = 500
        ↔ (controller_v1 sel syncEp ndEp req).body.error500 = true) ∧
    (controller_v1 sel syncEp ndEp req).httpStatus
        = (if (controller_v1 sel syncEp ndEp req).body.error500 then 500 else 200) := by
  cases h : (v1Dispatch sel syncEp ndEp req).error500 <;> simp [controller_v1, h]

/-- C3: a /v1 request whose body is malformed or whose command is not in the
fixed known set is answered 400 by the validation layer and no backend adapter
is ever invoked for it (dispatch trace empty). -/
theorem v1_validation_rejects_before_backend (knownCmds : List String) (sel : String)
    (syncEp : V1RequestBase → SolveResponse) (ndEp : V1RequestBase → Coro SolveResponse)
    (rawBody : Option V1RequestBase) (msg : String)
    (h : validateV1 knownCmds rawBody = .error msg) :
    (v1Pipeline knownCmds sel syncEp ndEp rawBody).httpStatus = 400 ∧
    (v1Pipeline knownCmds sel syncEp ndEp rawBody).dispatched = [] := by
  simp [v1Pipeline, h]

/-- Witness for C3: a concrete unknown command is rejected with 400 and an
empty dispatch trace. -/
theorem v1_validation_rejects_witness :
    (v1Pipeline ["request.get"] "nodriver" (fun _ => ⟨"ok", "", false⟩)
        (fun _ => .done ⟨"ok", "", false⟩)
        (some ⟨some "request.bogus", none⟩)).httpStatus = 400 ∧
    (v1Pipeline ["request.get"] "nodriver" (fun _ => ⟨"ok", "", false⟩)
        (fun _ => .done ⟨"ok", "", false⟩)
        (some ⟨some "request.bogus", none⟩)).dispatched = [] :=
  v1_validation_rejects_before_backend ["request.get"] "nodriver"
    (fun _ => ⟨"ok", "", false⟩) (fun _ => .done ⟨"ok", "", false⟩)
    (some ⟨some "request.bogus", none⟩) "unknown command" rfl

/-- C4 counterexample: a /content request that carries no User-Agent header
(modelled as none) still produces an outbound request whose User-Agent is
"Unknown" — a value the inbound request never carried — so the outbound
request does not carry exactly the inbound header values. -/
theorem content_header_forward_counterexample :
    ((content (some "http://example.test") none (some "a=b")
        (fun _ _ => FetchOutcome.ok 200 "stub-body")).outboundCalls.map OutboundCall.headers)
      = [[("User-Agent", "Unknown"), ("Cookie", "a=b")]] ∧
    (none : Option String) ≠ some "Unknown" :=
  ⟨rfl, by simp⟩

/-- C4 amended: when the inbound request carries User-Agent and Cookie
headers, the outbound request carries exactly those values and the response
body holds the target response text verbatim in external_api_response; when a
header is absent, "Unknown" (User-Agent) resp. "" (Cookie) is substituted. -/
theorem content_header_forward_amended (url ua ck text : String) (code : Nat)
    (fetch fetch2 : String → List (String × String) → FetchOutcome)
    (hurl : ¬ url = "")
    (hf : fetch url [("User-Agent", ua), ("Cookie", ck)] = FetchOutcome.ok code text) :
    (content (some url) (some ua) (some ck) fetch).outboundCalls
        = [{ url := url, headers := [("User-Agent", ua), ("Cookie", ck)] }] ∧
    (content (some url) (some ua) (some ck) fetch).body.lookup "external_api_response"
        = some (.s text) ∧
    (content (some url) none none fetch2).outboundCalls.map OutboundCall.headers
        = [[("User-Agent", "Unknown"), ("Cookie", "")]] := by
  have hs : sentHeaders (some ua) (some ck) = [("User-Agent", ua), ("Cookie", ck)] := rfl
  refine ⟨?_, ?_, ?_⟩
  · simp [content, hurl, hs, hf]
  · simp [content, hurl, hs, hf, JVal.lookup, List.lookup]
  · cases h2 : fetch2 url [("User-Agent", "Unknown"), ("Cookie", "")] <;>
      simp [content, hurl, sentHeaders, h2]

/-- Witness for the amended C4 at concrete inputs. -/
theorem content_header_forward_witness :
    (content (some "http://example.test") (some "UA-X") (some "a=b")
        (fun _ _ => FetchOutcome.ok 200 "hello")).outboundCalls
        = [{ url := "http://example.test",
             headers := [("User-Agent", "UA-X"), ("Cookie", "a=b")] }] ∧
    (content (some "http://example.test") (some "UA-X") (some "a=b")
        (fun _ _ => FetchOutcome.ok 200 "hello")).body.lookup "external_api_response"
        = some (.s "hello") ∧
    (content (some "http://example.test") none none
        (fun _ _ => FetchOutcome.ok 200 "hello")).outboundCalls.map OutboundCall.headers
        = [[("User-Agent", "Unknown"), ("Cookie", "")]] :=
  content_header_forward_amended "http://example.test" "UA-X" "a=b" "hello" 200
    (fun _ _ => FetchOutcome.ok 200 "hello") (fun _ _ => FetchOutcome.ok 200 "hello")
    (by decide) rfl

/-- C5: a /content request with the url parameter absent or empty is answered
400 with a JSON error field, and no outbound request is made. -/
theorem content_missing_url_rejected (uaHdr ckHdr : Option String)
    (fetch : String → List (String × String) → FetchOutcome) :
    ((content none uaHdr ckHdr fetch).httpStatus = 400 ∧
      (content none uaHdr ckHdr fetch).body.lookup "error"
        = some (.s "Missing \x27url\x27 in query parameters.") ∧
      (content none uaHdr ckHdr fetch).outboundCalls = []) ∧
    ((content (some "") uaHdr ckHdr fetch).httpStatus = 400 ∧
      (content (some "") uaHdr ckHdr fetch).body.lookup "error"
        = some (.s "Missing \x27url\x27 in query parameters.") ∧
      (content (some "") uaHdr ckHdr fetch).outboundCalls = []) := by
  simp [content, JVal.lookup, List.lookup]

/-- C6: when the outbound request raises a RequestException, /content answers
500 with a JSON body carrying the exception message in its error field. -/
theorem content_forward_failure_500 (url e : String) (uaHdr ckHdr : Option String)
    (fetch : String → List (String × String) → FetchOutcome)
    (hurl : ¬ url = "")
    (hf : fetch url (sentHeaders uaHdr ckHdr) = FetchOutcome.exn e) :
    (content (some url) uaHdr ckHdr fetch).httpStatus = 500 ∧
    (content (some url) uaHdr ckHdr fetch).body.lookup "error" = some (.s e) := by
  simp [content, hurl, hf, JVal.lookup, List.lookup]

/-- Witness for C6 at a concrete unreachable target. -/
theorem content_forward_failure_witness :
    (content (some "http://example.test") (some "UA-X") (some "a=b")
        (fun _ _ => FetchOutcome.exn "connection refused")).httpStatus = 500 ∧
    (content (some "http://example.test") (some "UA-X") (some "a=b")
        (fun _ _ => FetchOutcome.exn "connection refused")).body.lookup "error"
        = some (.s "connection refused") :=
  content_forward_failure_500 "http://example.test" "connection refused"
    (some "UA-X") (some "a=b") (fun _ _ => FetchOutcome.exn "connection refused")
    (by decide) rfl

/-- C7: the default error handler serves application/json and a body that is a
JSON object with exactly the fields error (the error body text) and
status_code (the HTTP status of the error, 404 for unmatched routes). -/
theorem default_error_handler_envelope (res : BottleErrorRes) :
    (default_error_handler res).contentType = "application/json" ∧
    (default_error_handler res).body.keys = ["error", "status_code"] ∧
    (default_error_handler res).body.lookup "error" = some (.s res.body) ∧
    (default_error_handler res).body.lookup "status_code" = some (.n res.status_code) := by
  simp [default_error_handler, JVal.keys, JVal.lookup, List.lookup]

/-- C8: under the "nodriver" selection the /v1 handler dispatches only to the
asynchronous adapter, the response body is exactly the value asyncio.run
returns for the backend coroutine, and that value is the completed value of
the coroutine (asyncio.run drives it to completion in a fresh per-call loop
before the handler returns). -/
theorem v1_async_runs_to_completion (syncEp : V1RequestBase → SolveResponse)
    (ndEp : V1RequestBase → Coro SolveResponse) (req : V1RequestBase) :
    (controller_v1 "nodriver" syncEp ndEp req).dispatched = [Adapter.async] ∧
    (controller_v1 "nodriver" syncEp ndEp req).body = asyncioRun (ndEp req) ∧
    Completes (ndEp req) ((controller_v1 "nodriver" syncEp ndEp req).body) := by
  have hb : (controller_v1 "nodriver" syncEp ndEp req).body = asyncioRun (ndEp req) := by
    simp [controller_v1, v1Dispatch]
  refine ⟨by simp [controller_v1], hb, ?_⟩
  rw [hb]
  exact asyncioRun_completes (ndEp req)

/-- C9: at startup the self-test of the selected backend is the first executed
step, the server step is reached exactly when that self-test succeeds, and a
self-test failure means traffic is never served. -/
theorem startup_selftest_before_serve (sel : String) (tNd tUc : Except String Unit) :
    (mainStartup sel tNd tUc).1.head? = some (selectedTestStep sel) ∧
    (StartupStep.serveTraffic ∈ (mainStartup sel tNd tUc).1
        ↔ isOkE (if sel = "nodriver" then tNd else tUc) = true) ∧
    (mainStartup sel tNd tUc).2 = isOkE (if sel = "nodriver" then tNd else tUc) ∧
    selectedTestStep sel ≠ StartupStep.serveTraffic := by
  by_cases h : sel = "nodriver"
  · cases tNd <;> simp [mainStartup, selectedTestStep, isOkE, h]
  · cases tUc <;> simp [mainStartup, selectedTestStep, isOkE, h]

/-- C10: whenever the outbound request completes with any HTTP status
(including 4xx/5xx), /content answers with outer status 200 and the message
"Request forwarded successfully", reporting the target status only inside the
JSON body status field. -/
theorem content_forward_target_status_in_body (url text : String) (code : Nat)
    (uaHdr ckHdr : Option String)
    (fetch : String → List (String × String) → FetchOutcome)
    (hurl : ¬ url = "")
    (hf : fetch url (sentHeaders uaHdr ckHdr) = FetchOutcome.ok code text) :
    (content (some url) uaHdr ckHdr fetch).httpStatus = 200 ∧
    (content (some url) uaHdr ckHdr fetch).body.lookup "message"
        = some (.s "Request forwarded successfully") ∧
    (content (some url) uaHdr ckHdr fetch).body.lookup "status" = some (.n code) := by
  simp [content, hurl, hf, JVal.lookup, List.lookup]

/-- Witness for C10 with a target answering 503: the outer status is still 200
and 503 appears only in the body. -/
theorem content_forward_target_status_witness :
    (content (some "http://example.test") (some "UA-X") (some "a=b")
        (fun _ _ => FetchOutcome.ok 503 "service down")).httpStatus = 200 ∧
    (content (some "http://example.test") (some "UA-X") (some "a=b")
        (fun _ _ => FetchOutcome.ok 503 "service down")).body.lookup "message"
        = some (.s "Request forwarded successfully") ∧
    (content (some "http://example.test") (some "UA-X") (some "a=b")
        (fun _ _ => FetchOutcome.ok 503 "service down")).body.lookup "status"
        = some (.n 503) :=
  content_forward_target_status_in_body "http://example.test" "service down" 503
    (some "UA-X") (some "a=b") (fun _ _ => FetchOutcome.ok 503 "service down")
    (by decide) rfl

end FlareSolverr
